import Mathlib

/-!
# link-preview-card: the LinkPreviewCard component

A shallow embedding of `src/link-preview-card.js` (class `LinkPreviewCard`):
the reactive fields of the component, `updated`, `fetchData`, `defaultTheme`,
`handleImageError` and `render`.

Conventions of the embedding.

* JavaScript values that reach the component from the metadata service are
  kept as values (`JSVal`); `||` is the JavaScript operator, deciding on
  truthiness.
* Every reactive field holds a JavaScript value. The declaration
  `type: String` only converts attributes: `href` is `null` once its
  attribute is removed, and is whatever the host page assigns to the
  property otherwise.
* An `async` method is a function of the initial state, of what the awaited
  promises settle with, and of what other code does to the component while
  the method is suspended at an `await`.
* `Math.random()` is an arbitrary double in `[0, 1)`; the product with `25`
  is rounded as IEEE 754 binary64 does.
-/

namespace LinkPreviewCard

/-! ## JavaScript values -/

/-- A JavaScript value as `response.json()` can produce it, together with
`undefined`, the result of reading a property that is absent. Numbers carry
their numeric value. -/
inductive JSVal where
  | undefined : JSVal
  | null : JSVal
  | bool (b : Bool) : JSVal
  | num (q : ℚ) : JSVal
  | str (s : String) : JSVal
  | arr (items : List JSVal) : JSVal
  | obj (fields : List (String × JSVal)) : JSVal

/-- What a `throw` or a rejected promise carries. -/
inductive JSError where
  /-- The value of `new Error(message)`. -/
  | error (message : String) : JSError
  /-- A `TypeError` raised by the engine: a property read on `undefined` or `null`, or a
  call of what is not a function. -/
  | typeError (message : String) : JSError
  /-- The reason an awaited platform promise (`fetch`, `response.json`) rejected with. -/
  | rejected (reason : String) : JSError
  deriving DecidableEq

/-- JavaScript `ToBoolean`. -/
def truthy : JSVal → Bool
  | .undefined => false
  | .null => false
  | .bool b => b
  | .num q => decide (q ≠ 0)
  | .str s => decide (s ≠ "")
  | .arr _ => true
  | .obj _ => true

/-- The own property `key` of a parsed JSON object, `undefined` when it has
none. A parsed object holds each key once. -/
def lookup (key : String) : List (String × JSVal) → JSVal
  | [] => .undefined
  | (k, v) :: rest => if k = key then v else lookup key rest

/-- The property read `v[key]`, for the keys `fetchData` reads (`"data"`,
`"og:title"`, `"title"`, `"description"`, `"image"`, `"logo"`, `"og:image"`,
`"url"`, `"theme-color"`): none of them is a property of a primitive wrapper
or of `Array.prototype`/`Object.prototype`, so only an object's own property
can answer; reading from `undefined` or `null` throws. -/
def member (v : JSVal) (key : String) : Except JSError JSVal :=
  match v with
  | .undefined => .error (.typeError "Cannot read properties of undefined")
  | .null => .error (.typeError "Cannot read properties of null")
  | .obj fields => .ok (lookup key fields)
  | _ => .ok .undefined

/-- Whether `pat` starts `s`. -/
def startsWith : List Char → List Char → Bool
  | [], _ => true
  | _ :: _, [] => false
  | p :: ps, c :: cs => p == c && startsWith ps cs

/-- Whether `pat` occurs in `s` at some position. -/
def occursIn (pat : List Char) : List Char → Bool
  | [] => startsWith pat []
  | c :: cs => startsWith pat (c :: cs) || occursIn pat cs

/-- The method `String.prototype.includes`. -/
def includes (s pat : String) : Bool :=
  occursIn pat.toList s.toList

/-! ## `Math.random()` and `Math.floor(Math.random() * 25)` -/

/-- A binary64 number in `[0, 1)`, as `Math.random()` returns: the value is
`m / 2 ^ k`. Every double in `[0, 1)` has this form (a normal number of
exponent `-e` has `2 ^ 52 ≤ m < 2 ^ 53` and `k = 52 + e`, a subnormal one has
`k = 1074`), and every such quotient is a double. -/
structure Draw where
  m : Nat
  k : Nat
  m_lt : m < 2 ^ 53
  k_ge : 53 ≤ k
  k_le : k ≤ 1074

/-- Number of binary digits of `n`, counting at most `fuel` of them. -/
def bitLengthAux : Nat → Nat → Nat
  | 0, _ => 0
  | fuel + 1, n => if n = 0 then 0 else bitLengthAux fuel (n / 2) + 1

/-- Number of binary digits of `n`. -/
def bitLength (n : Nat) : Nat :=
  bitLengthAux n n

/-- Round the integer `n` to 53 significant bits, to nearest, ties to even:
the binary64 rounding of `n / 2 ^ k`, scaled by `2 ^ k`. -/
def roundToDouble (n : Nat) : Nat :=
  let shift := bitLength n - 53
  let q := n / 2 ^ shift
  let rem := n % 2 ^ shift
  if 2 ^ shift < 2 * rem ∨ (2 * rem = 2 ^ shift ∧ q % 2 = 1) then (q + 1) * 2 ^ shift
  else q * 2 ^ shift

/-- The value of `Math.floor(Math.random() * 25)` when `Math.random()` returns `d`: the
product is rounded to a double, then floored. -/
def floorTimes25 (d : Draw) : Nat :=
  roundToDouble (25 * d.m) / 2 ^ d.k

/-- A draw on which `Math.floor(Math.random() * 25)` is `j`, for
`j < 25`: the double `⌈32 j / 25⌉ / 32`. -/
def drawFor (j : Fin 25) : Draw :=
  { m := (32 * j.1 + 24) / 25 * 2 ^ 48
    k := 53
    m_lt := by
      have h := j.2
      have h1 : (32 * j.1 + 24) / 25 ≤ 31 := by omega
      have h2 : (2 : Nat) ^ 53 = 32 * 2 ^ 48 := by norm_num
      have h3 : (32 * j.1 + 24) / 25 * 2 ^ 48 ≤ 31 * 2 ^ 48 := Nat.mul_le_mul_right _ h1
      omega
    k_ge := Nat.le_refl 53
    k_le := by norm_num }

/-! ## The component -/

/-- The reactive fields set up by the constructor. -/
structure Card where
  title : JSVal
  href : JSVal
  description : JSVal
  image : JSVal
  link : JSVal
  themeColor : JSVal
  loadingState : Bool

/-- The state the constructor leaves. -/
def Card.initial : Card :=
  { title := .str "", href := .str "", description := .str "", image := .str "",
    link := .str "", themeColor := .str "", loadingState := false }

/-- The colour `var(--ddd-primary-n)`. -/
def primary (n : Nat) : String :=
  "var(--ddd-primary-" ++ toString n ++ ")"

/-- Whether a value is the string `"psu.edu"`: the test `Array.prototype.includes`
makes on each element. -/
def isPsuEdu : JSVal → Bool
  | .str s => s == "psu.edu"
  | _ => false

/-- The method `defaultTheme()`; `d` is what `Math.random()` returns if it is called.
The call `this.href.includes("psu.edu")` is `String.prototype.includes` on a
string and `Array.prototype.includes` on an array; it throws a `TypeError` on
`undefined` and `null`, which have no properties, and on a boolean, a number
or a plain object, where `includes` is not a function. -/
def defaultTheme (c : Card) (d : Draw) : Except JSError String :=
  match c.href with
  | .str s =>
    .ok (if includes s "psu.edu" then "var(--ddd-primary-2)" else primary (floorTimes25 d))
  | .arr items =>
    .ok (if items.any isPsuEdu then "var(--ddd-primary-2)" else primary (floorTimes25 d))
  | .undefined => .error (.typeError "Cannot read properties of undefined")
  | .null => .error (.typeError "Cannot read properties of null")
  | _ => .error (.typeError "this.href.includes is not a function")

/-- The expression `this.defaultTheme()`. -/
def themeValue (c : Card) (d : Draw) : Except JSError JSVal :=
  match defaultTheme c d with
  | .error e => .error e
  | .ok s => .ok (.str s)

/-! ## `fetchData` -/

/-- A line written to the console. -/
inductive LogEntry where
  /-- A call `console.error(message, error)`. -/
  | error (message : String) (e : JSError) : LogEntry
  /-- A call `console.warn(message, value)`. -/
  | warn (message : String) (v : JSVal) : LogEntry

/-- What the two awaited promises of `fetchData` settle with: `fetch(url)`
rejects, or it resolves with a response whose `ok` and `status` are given and
whose `json()` promise rejects or resolves with the parsed body. -/
inductive FetchOutcome where
  | rejected (reason : String) : FetchOutcome
  | response (ok : Bool) (status : Nat) (body : Except String JSVal) : FetchOutcome

/-- A statement running on the component: the state it leaves and what it
throws, if it throws. -/
abbrev Stmt := Card → Card × Option JSError

/-- The sequence `s; t`: `t` does not run when `s` throws. -/
def Stmt.seq (s t : Stmt) : Stmt := fun c =>
  match s c with
  | (c1, some e) => (c1, some e)
  | (c1, none) => t c1

/-- The statement `this.field = expr;` where `store` writes the field: nothing is written
when `expr` throws. -/
def assign (store : Card → JSVal → Card) (expr : Card → Except JSError JSVal) : Stmt := fun c =>
  match expr c with
  | .error e => (c, some e)
  | .ok v => (store c v, none)

/-- The expression `json.data[key]`. -/
def dataField (json : JSVal) (key : String) : Except JSError JSVal :=
  match member json "data" with
  | .error e => .error e
  | .ok data => member data key

/-- The expression `a || b`: the value of `a` when it is truthy, else `b`; `b` is not
evaluated in the first case. -/
def orElse (a b : Except JSError JSVal) : Except JSError JSVal :=
  match a with
  | .error e => .error e
  | .ok v => if truthy v then .ok v else b

/-- The value of `a || b` for values that are already computed. -/
def pick (a b : JSVal) : JSVal :=
  if truthy a then a else b

/-- The expression `json.data["og:title"] || json.data["title"] || "No Title Available"`. -/
def titleExpr (json : JSVal) : Except JSError JSVal :=
  orElse (dataField json "og:title")
    (orElse (dataField json "title") (.ok (.str "No Title Available")))

/-- The expression `json.data["description"] || "No Description Available"`. -/
def descriptionExpr (json : JSVal) : Except JSError JSVal :=
  orElse (dataField json "description") (.ok (.str "No Description Available"))

/-- The expression
`json.data["image"] || json.data["logo"] || json.data["og:image"] || ""`. -/
def imageExpr (json : JSVal) : Except JSError JSVal :=
  orElse (dataField json "image")
    (orElse (dataField json "logo") (orElse (dataField json "og:image") (.ok (.str ""))))

/-- The expression `json.data["url"] || link`. -/
def linkExpr (json : JSVal) (link : JSVal) : Except JSError JSVal :=
  orElse (dataField json "url") (.ok link)

/-- The expression `json.data["theme-color"] || this.defaultTheme()`, evaluated on the
component `c`. -/
def themeColorExpr (json : JSVal) (d : Draw) (c : Card) : Except JSError JSVal :=
  orElse (dataField json "theme-color") (themeValue c d)

/-- The five assignments of the `try` block that follow `await response.json()`. -/
def tryAssignments (link : JSVal) (json : JSVal) (d : Draw) : Stmt :=
  (assign (fun c v => { c with title := v }) (fun _ => titleExpr json)).seq <|
  (assign (fun c v => { c with description := v }) (fun _ => descriptionExpr json)).seq <|
  (assign (fun c v => { c with image := v }) (fun _ => imageExpr json)).seq <|
  (assign (fun c v => { c with link := v }) (fun _ => linkExpr json link)).seq <|
  assign (fun c v => { c with themeColor := v }) (themeColorExpr json d)

/-- The five assignments of the `catch` block, after `console.error`. -/
def catchAssignments (d : Draw) : Stmt :=
  (assign (fun c v => { c with title := v }) (fun _ => .ok (.str "No Preview Available"))).seq <|
  (assign (fun c v => { c with description := v }) (fun _ => .ok (.str ""))).seq <|
  (assign (fun c v => { c with image := v }) (fun _ => .ok (.str ""))).seq <|
  (assign (fun c v => { c with link := v }) (fun _ => .ok (.str ""))).seq <|
  assign (fun c v => { c with themeColor := v }) (fun c => themeValue c d)

/-- A template literal with one expression at its end: the string made of
`text` followed by the string conversion of `value`. -/
structure TemplateString where
  text : String
  value : JSVal

/-- The URL `fetchData(link)` requests. -/
def requestUrl (link : JSVal) : TemplateString :=
  { text := "https://open-apis.hax.cloud/api/services/website/metadata?q=", value := link }

/-- The part of `fetchData(link)` that runs before the first `await`:
`this.loadingState = true`, then `fetch(url)` is called. Returns the state at
that call and the URL. -/
def fetchDataStart (link : JSVal) (c : Card) : Card × TemplateString :=
  ({ c with loadingState := true }, requestUrl link)

/-- One run of `fetchData`, from the call to the settling of its promise. -/
structure FetchRun where
  /-- The component when `fetch(url)` is called. -/
  atRequest : Card
  /-- The URLs requested, in order. -/
  requests : List TemplateString
  /-- The component when the promise of `fetchData` settles. -/
  final : Card
  /-- What the run wrote to the console. -/
  log : List LogEntry
  /-- What the promise of `fetchData` rejects with; `none` when it fulfils. -/
  thrown : Option JSError

/-- The method `fetchData(link)` called on the component `c0`.

* `out` is what the awaited promises settle with;
* `during1` is what other code does to the component while the run is
  suspended at `await fetch(url)`, `during2` while it is suspended at
  `await response.json()` (the host page setting a property, another run of
  `fetchData`, `handleImageError`);
* `d` is what `Math.random()` returns if `defaultTheme()` reaches it. -/
def fetchData (link : JSVal) (c0 : Card) (out : FetchOutcome)
    (during1 during2 : Card → Card) (d : Draw) : FetchRun :=
  let start := fetchDataStart link c0
  -- try { ... }
  let tried : Card × Option JSError :=
    match out with
    | .rejected reason => (during1 start.1, some (.rejected reason))
    | .response ok status body =>
      if !ok then
        (during1 start.1, some (.error ("Response Status: " ++ toString status)))
      else
        match body with
        | .error reason => (during2 (during1 start.1), some (.rejected reason))
        | .ok json => tryAssignments link json d (during2 (during1 start.1))
  -- catch (error) { ... }
  let caught : Card × List LogEntry × Option JSError :=
    match tried with
    | (c, none) => (c, [], none)
    | (c, some e) =>
      let handled := catchAssignments d c
      (handled.1, [.error "Error fetching metadata:" e], handled.2)
  -- finally { this.loadingState = false; }
  { atRequest := start.1
    requests := [start.2]
    final := { caught.1 with loadingState := false }
    log := caught.2.1
    thrown := caught.2.2 }

/-! ## `updated`, `handleImageError`, `render` -/

/-- What `updated` has done when it returns. -/
structure Updated where
  /-- The component when `updated` returns. -/
  card : Card
  /-- The `link` arguments of the `fetchData` calls made, in order. -/
  calls : List JSVal
  /-- The URLs requested, in order. -/
  requests : List TemplateString

/-- The method `updated(changedProperties)`; `changedProperties` is given by its keys.
The call `this.fetchData(this.href)` is not awaited: it runs up to its first
`await` and the rest of the run happens after `updated` has returned. -/
def updated (changedProperties : List String) (c : Card) : Updated :=
  if changedProperties.contains "href" && truthy c.href then
    let start := fetchDataStart c.href c
    { card := start.1, calls := [c.href], requests := [start.2] }
  else
    { card := c, calls := [], requests := [] }

/-- The method `handleImageError()`: the state it leaves and the warning it logs.
`requestUpdate()` asks for the next render, which is `render` of that state. -/
def handleImageError (c : Card) : Card × List LogEntry :=
  ({ c with image := .str "" }, [.warn "Image failed to load:" c.image])

/-- The value of an attribute in a template. -/
inductive AttrValue where
  /-- Written in the template. -/
  | static (s : String) : AttrValue
  /-- The whole attribute is an expression of value `v`. -/
  | bound (v : JSVal) : AttrValue
  /-- The attribute is the text `pre` followed by an expression of value `v`. -/
  | template (pre : String) (v : JSVal) : AttrValue
  /-- An event listener bound to the method `this.method`. -/
  | listener (method : String) : AttrValue

/-- What a template renders: elements, static text, and child expressions
of the template. White space between elements is left out. -/
inductive Html where
  | element (tag : String) (attrs : List (String × AttrValue)) (children : List Html) : Html
  | text (s : String) : Html
  | expr (v : JSVal) : Html

/-- The template of the loading branch. -/
def spinnerTemplate : List Html :=
  [.element "div" [("class", .static "loading-spinner"), ("part", .static "loading-spinner")] []]

/-- The template of the other branch. -/
def previewTemplate (c : Card) : List Html :=
  [ if truthy c.image then
      .element "img"
        [("src", .bound c.image), ("alt", .static ""), ("@error", .listener "handleImageError"),
         ("part", .static "image")] []
    else .expr (.str ""),
    .element "div" [("class", .static "content"), ("part", .static "content")]
      [ .element "h3" [("class", .static "title"), ("part", .static "title")] [.expr c.title],
        .element "details" [("part", .static "details")]
          [ .element "summary" [("part", .static "summary")] [.text "Description"],
            .element "p" [("class", .static "desc"), ("part", .static "desc")]
              [.expr c.description] ],
        .element "a"
          [("href", .bound c.link), ("target", .static "_blank"), ("class", .static "url"),
           ("part", .static "url")] [.text "Visit Site"] ] ]

/-- The method `render()`. -/
def render (c : Card) : Html :=
  .element "div"
    [("class", .static "preview"), ("style", .template "--themeColor: " c.themeColor),
     ("part", .static "preview")]
    (if c.loadingState then spinnerTemplate else previewTemplate c)

/-! ## Reading a rendered tree -/

mutual
/-- The tags of the elements of a tree, in document order. -/
def Html.tags : Html → List String
  | .element tag _ children => tag :: Html.tagsOfList children
  | .text _ => []
  | .expr _ => []
/-- The tags of the elements of a list of trees, in document order. -/
def Html.tagsOfList : List Html → List String
  | [] => []
  | h :: rest => h.tags ++ Html.tagsOfList rest
end

/-- The children of an element. -/
def Html.children : Html → List Html
  | .element _ _ children => children
  | .text _ => []
  | .expr _ => []

/-! ## Lemmas: substring search -/

theorem startsWith_iff (pat s : List Char) :
    startsWith pat s = true ↔ ∃ post, s = pat ++ post := by
  induction pat generalizing s with
  | nil => simp [startsWith]
  | cons p ps ih =>
    cases s with
    | nil => simp [startsWith]
    | cons c cs =>
      simp only [startsWith, Bool.and_eq_true, beq_iff_eq, ih, List.cons_append, List.cons.injEq]
      constructor
      · rintro ⟨rfl, post, rfl⟩
        exact ⟨post, rfl, rfl⟩
      · rintro ⟨post, rfl, rfl⟩
        exact ⟨rfl, post, rfl⟩

theorem occursIn_iff (pat s : List Char) :
    occursIn pat s = true ↔ ∃ pre post, s = pre ++ pat ++ post := by
  induction s with
  | nil =>
    simp only [occursIn, startsWith_iff]
    constructor
    · rintro ⟨post, h⟩
      exact ⟨[], post, by simpa using h⟩
    · rintro ⟨pre, post, h⟩
      have h1 : pre = [] ∧ pat = [] ∧ post = [] := by simpa [List.append_eq_nil] using h.symm
      exact ⟨[], by simp [h1.2.1]⟩
  | cons c cs ih =>
    simp only [occursIn, Bool.or_eq_true, startsWith_iff, ih]
    constructor
    · rintro (⟨post, h⟩ | ⟨pre, post, h⟩)
      · exact ⟨[], post, by simpa using h⟩
      · exact ⟨c :: pre, post, by simp [h]⟩
    · rintro ⟨pre, post, h⟩
      cases pre with
      | nil => exact Or.inl ⟨post, by simpa using h⟩
      | cons x xs =>
        simp only [List.cons_append, List.cons.injEq] at h
        exact Or.inr ⟨xs, post, by simpa using h.2⟩

/-- Searching with `includes` succeeds exactly when the string is some prefix, the
pattern, and some suffix. -/
theorem includes_iff (s pat : String) :
    includes s pat = true ↔ ∃ pre post : String, s = pre ++ pat ++ post := by
  unfold includes
  rw [occursIn_iff]
  constructor
  · rintro ⟨pre, post, h⟩
    refine ⟨⟨pre⟩, ⟨post⟩, ?_⟩
    apply String.ext
    simpa using h
  · rintro ⟨pre, post, rfl⟩
    exact ⟨pre.toList, post.toList, by simp⟩

/-! ## Lemmas: the rounded product -/

theorem bitLengthAux_le (b : Nat) : ∀ fuel n : Nat, n < 2 ^ b → bitLengthAux fuel n ≤ b := by
  induction b with
  | zero =>
    intro fuel n h
    have hn : n = 0 := by simpa using h
    subst hn
    cases fuel <;> simp [bitLengthAux]
  | succ b ih =>
    intro fuel n h
    cases fuel with
    | zero => simp [bitLengthAux]
    | succ fuel =>
      simp only [bitLengthAux]
      split
      · exact Nat.zero_le _
      · have h2 : n / 2 < 2 ^ b := by
          rw [Nat.div_lt_iff_lt_mul (by norm_num)]
          rw [pow_succ] at h
          exact h
        exact Nat.succ_le_succ (ih fuel (n / 2) h2)

theorem lt_two_pow_bitLengthAux : ∀ fuel n : Nat, n ≤ fuel → n < 2 ^ bitLengthAux fuel n := by
  intro fuel
  induction fuel with
  | zero =>
    intro n h
    have hn : n = 0 := by omega
    subst hn
    simp [bitLengthAux]
  | succ fuel ih =>
    intro n h
    simp only [bitLengthAux]
    split
    · rename_i h0
      simp [h0]
    · rename_i h0
      have h2 : n / 2 ≤ fuel := by omega
      have h3 := ih (n / 2) h2
      rw [pow_succ]
      omega

/-- The digit count is right: `n` fits in `bitLength n` binary digits. -/
theorem lt_two_pow_bitLength (n : Nat) : n < 2 ^ bitLength n :=
  lt_two_pow_bitLengthAux n n (Nat.le_refl n)

theorem bitLength_le (b n : Nat) (h : n < 2 ^ b) : bitLength n ≤ b :=
  bitLengthAux_le b n n h

/-- Rounding moves a number by at most half a unit in the last place. -/
theorem two_mul_roundToDouble_le (n : Nat) :
    2 * roundToDouble n ≤ 2 * n + 2 ^ (bitLength n - 53) := by
  unfold roundToDouble
  simp only
  generalize 2 ^ (bitLength n - 53) = p
  have hdiv : p * (n / p) + n % p = n := Nat.div_add_mod n p
  have hmul : n / p * p = p * (n / p) := Nat.mul_comm _ _
  split
  · rename_i h
    have hp : p ≤ 2 * (n % p) := by
      rcases h with h | h
      · omega
      · omega
    rw [Nat.add_mul, hmul]
    omega
  · rw [hmul]
    omega

/-- Rounding an exactly representable number leaves it as it is. -/
theorem roundToDouble_of_lt (n : Nat) (h : n < 2 ^ 53) : roundToDouble n = n := by
  have hb : bitLength n - 53 = 0 := by
    have := bitLength_le 53 n h
    omega
  unfold roundToDouble
  simp [hb, Nat.mod_one]

/-- The index `Math.floor(Math.random() * 25)` is below 25. -/
theorem floorTimes25_lt (d : Draw) : floorTimes25 d < 25 := by
  unfold floorTimes25
  have hm := d.m_lt
  have hn : 25 * d.m < 2 ^ 58 := by
    have : (2 : Nat) ^ 58 = 32 * 2 ^ 53 := by norm_num
    omega
  have hs : bitLength (25 * d.m) - 53 ≤ 5 := by
    have := bitLength_le 58 (25 * d.m) hn
    omega
  have hp : 2 ^ (bitLength (25 * d.m) - 53) ≤ 2 ^ 5 := Nat.pow_le_pow_right (by norm_num) hs
  have hr := two_mul_roundToDouble_le (25 * d.m)
  have hk : 2 ^ 53 ≤ 2 ^ d.k := Nat.pow_le_pow_right (by norm_num) d.k_ge
  rw [Nat.div_lt_iff_lt_mul (by positivity)]
  have h32 : (2 : Nat) ^ 5 = 32 := by norm_num
  omega

theorem floorTimes25_drawFor : ∀ j : Fin 25, floorTimes25 (drawFor j) = j.1 := by
  decide

theorem primary_injOn : ∀ i < 25, ∀ j < 25, primary i = primary j → i = j := by
  decide

/-! ## Lemmas: `defaultTheme` and the blocks of `fetchData` -/

theorem defaultTheme_congr (c c' : Card) (d : Draw) (h : c'.href = c.href) :
    defaultTheme c' d = defaultTheme c d := by
  unfold defaultTheme
  rw [h]

theorem defaultTheme_str (c : Card) (d : Draw) (s : String) (h : c.href = .str s) :
    defaultTheme c d =
      .ok (if includes s "psu.edu" then "var(--ddd-primary-2)" else primary (floorTimes25 d)) := by
  unfold defaultTheme
  rw [h]

theorem defaultTheme_of_not_includes (c : Card) (d : Draw) (s : String) (hs : c.href = .str s)
    (h : includes s "psu.edu" = false) :
    defaultTheme c d = .ok (primary (floorTimes25 d)) := by
  simp [defaultTheme_str c d s hs, h]

theorem defaultTheme_of_includes (c : Card) (d : Draw) (s : String) (hs : c.href = .str s)
    (h : includes s "psu.edu" = true) :
    defaultTheme c d = .ok "var(--ddd-primary-2)" := by
  simp [defaultTheme_str c d s hs, h]

/-- What the `catch` block leaves: the four fallback fields always; the theme
colour when `defaultTheme()` returns; the throw of `defaultTheme()` otherwise,
with `themeColor` not written. -/
theorem catchAssignments_facts (d : Draw) (c : Card) :
    (catchAssignments d c).1.title = .str "No Preview Available" ∧
    (catchAssignments d c).1.description = .str "" ∧
    (catchAssignments d c).1.image = .str "" ∧
    (catchAssignments d c).1.link = .str "" ∧
    (catchAssignments d c).1.href = c.href ∧
    (catchAssignments d c).1.loadingState = c.loadingState ∧
    (∀ v, defaultTheme c d = .ok v →
      (catchAssignments d c).1.themeColor = .str v ∧ (catchAssignments d c).2 = none) ∧
    (∀ e, defaultTheme c d = .error e →
      (catchAssignments d c).1.themeColor = c.themeColor ∧ (catchAssignments d c).2 = some e) := by
  have hv : themeValue
      { c with
        title := .str "No Preview Available", description := .str "",
        image := .str "", link := .str "" } d = themeValue c d := rfl
  have key : ∀ r, themeValue c d = r → catchAssignments d c =
      match r with
      | .error e =>
        ({ c with
            title := .str "No Preview Available", description := .str "",
            image := .str "", link := .str "" }, some e)
      | .ok v =>
        ({ c with
            title := .str "No Preview Available", description := .str "",
            image := .str "", link := .str "", themeColor := v }, none) := by
    intro r hr
    rw [← hr, ← hv]
    rfl
  cases h : defaultTheme c d with
  | error e =>
    have hr : themeValue c d = .error e := by
      unfold themeValue
      rw [h]
    rw [key _ hr]
    refine ⟨rfl, rfl, rfl, rfl, rfl, rfl, ?_, ?_⟩
    · intro v hv
      cases hv
    · intro e' he
      cases he
      exact ⟨rfl, rfl⟩
  | ok s =>
    have hr : themeValue c d = .ok (.str s) := by
      unfold themeValue
      rw [h]
    rw [key _ hr]
    refine ⟨rfl, rfl, rfl, rfl, rfl, rfl, ?_, ?_⟩
    · intro v hv
      cases hv
      exact ⟨rfl, rfl⟩
    · intro e' he
      cases he

/-- Reading `json.data[key]` throws for one key exactly when it throws for
every key, with the same error. -/
theorem dataField_cases (json : JSVal) :
    (∃ e, ∀ key, dataField json key = .error e) ∨
      (∃ get : String → JSVal, ∀ key, dataField json key = .ok (get key)) := by
  unfold dataField
  cases hj : member json "data" with
  | error e => exact Or.inl ⟨e, fun _ => rfl⟩
  | ok data =>
    cases data with
    | undefined => exact Or.inl ⟨_, fun _ => rfl⟩
    | null => exact Or.inl ⟨_, fun _ => rfl⟩
    | bool b => exact Or.inr ⟨fun _ => .undefined, fun _ => rfl⟩
    | num q => exact Or.inr ⟨fun _ => .undefined, fun _ => rfl⟩
    | str s => exact Or.inr ⟨fun _ => .undefined, fun _ => rfl⟩
    | arr items => exact Or.inr ⟨fun _ => .undefined, fun _ => rfl⟩
    | obj fields => exact Or.inr ⟨fun key => lookup key fields, fun _ => rfl⟩

/-- When the first read of `json.data[...]` throws, the `try` block writes nothing. -/
theorem tryAssignments_error (link : JSVal) (json : JSVal) (d : Draw) (c : Card) (e : JSError)
    (h : dataField json "og:title" = .error e) :
    tryAssignments link json d c = (c, some e) := by
  simp [tryAssignments, Stmt.seq, assign, titleExpr, orElse, h]

theorem orElse_ok (v : JSVal) (b : JSVal) : orElse (.ok v) (.ok b) = .ok (pick v b) := by
  show (if truthy v then Except.ok v else Except.ok b) = _
  unfold pick
  split <;> rfl

/-- When the reads of `json.data[...]` answer `get key`, the `try` block writes
`title`, `description`, `image` and `link`, then `themeColor` unless the
evaluation of its right-hand side throws. -/
theorem tryAssignments_ok (link : JSVal) (json : JSVal) (d : Draw) (c : Card)
    (get : String → JSVal) (h : ∀ key, dataField json key = .ok (get key)) :
    tryAssignments link json d c =
      match orElse (.ok (get "theme-color")) (themeValue c d) with
      | .error e =>
        ({ c with
            title := pick (get "og:title") (pick (get "title") (.str "No Title Available")),
            description := pick (get "description") (.str "No Description Available"),
            image := pick (get "image") (pick (get "logo") (pick (get "og:image") (.str ""))),
            link := pick (get "url") link }, some e)
      | .ok v =>
        ({ c with
            title := pick (get "og:title") (pick (get "title") (.str "No Title Available")),
            description := pick (get "description") (.str "No Description Available"),
            image := pick (get "image") (pick (get "logo") (pick (get "og:image") (.str ""))),
            link := pick (get "url") link,
            themeColor := v }, none) := by
  simp only [tryAssignments, Stmt.seq, assign, titleExpr, descriptionExpr, imageExpr, linkExpr,
    themeColorExpr, h, orElse_ok]
  rfl

/-! ## `defaultTheme` -/

/-- C4, as stated, fails: for the URL `https://example.com`, which does not
contain `psu.edu`, there is no set of 26 colours such that every draw gives a
colour of the set and every colour of the set is given by some draw. -/
theorem defaultTheme_not_26_values :
    ¬ ∃ S : Finset String, S.card = 26 ∧
      (∀ d, ∃ s ∈ S,
        defaultTheme { Card.initial with href := .str "https://example.com" } d = .ok s) ∧
      (∀ s ∈ S, ∃ d,
        defaultTheme { Card.initial with href := .str "https://example.com" } d = .ok s) := by
  rintro ⟨S, hcard, -, hsur⟩
  have hsub : S ⊆ (Finset.range 25).image primary := by
    intro s hs
    obtain ⟨d, hd⟩ := hsur s hs
    rw [defaultTheme_of_not_includes _ d "https://example.com" rfl (by decide)] at hd
    cases hd
    rw [Finset.mem_image]
    exact ⟨floorTimes25 d, Finset.mem_range.2 (floorTimes25_lt d), rfl⟩
  have h1 := Finset.card_le_card hsub
  have h2 : ((Finset.range 25).image primary).card ≤ 25 := by
    simpa using (Finset.card_image_le : ((Finset.range 25).image primary).card ≤ _)
  omega

/-- C4, amended: for every URL held by `href` that does not contain `psu.edu`,
`defaultTheme()` returns `var(--ddd-primary-k)` with `k` among the 25 values
`0, ..., 24` for every draw, each of the 25 is returned for some draw, and the
25 colours are distinct. -/
theorem defaultTheme_accent_range (c : Card) (s : String) (hs : c.href = .str s)
    (h : includes s "psu.edu" = false) :
    (∀ d, ∃ k, k < 25 ∧ defaultTheme c d = .ok (primary k)) ∧
    (∀ k, k < 25 → ∃ d, defaultTheme c d = .ok (primary k)) ∧
    (∀ i, i < 25 → ∀ j, j < 25 → primary i = primary j → i = j) := by
  refine ⟨fun d => ⟨floorTimes25 d, floorTimes25_lt d, defaultTheme_of_not_includes c d s hs h⟩,
    fun k hk => ⟨drawFor ⟨k, hk⟩, ?_⟩, primary_injOn⟩
  rw [defaultTheme_of_not_includes c _ s hs h, floorTimes25_drawFor]

theorem defaultTheme_accent_range_witness :
    (Card.href { Card.initial with href := .str "https://example.com" } =
        .str "https://example.com" ∧
      includes "https://example.com" "psu.edu" = false) ∧
    ((∀ d, ∃ k, k < 25 ∧
        defaultTheme { Card.initial with href := .str "https://example.com" } d =
          .ok (primary k)) ∧
     (∀ k, k < 25 → ∃ d,
        defaultTheme { Card.initial with href := .str "https://example.com" } d =
          .ok (primary k)) ∧
     (∀ i, i < 25 → ∀ j, j < 25 → primary i = primary j → i = j)) :=
  ⟨⟨rfl, by decide⟩,
    defaultTheme_accent_range { Card.initial with href := .str "https://example.com" }
      "https://example.com" rfl (by decide)⟩

/-- C5: when `href` contains `psu.edu` at any position (it is some prefix,
then `psu.edu`, then some suffix), `defaultTheme()` returns
`var(--ddd-primary-2)` for every draw, so two calls agree. -/
theorem defaultTheme_psu (c : Card) (pre post : String)
    (h : c.href = .str (pre ++ "psu.edu" ++ post)) (d d' : Draw) :
    defaultTheme c d = .ok "var(--ddd-primary-2)" ∧ defaultTheme c d = defaultTheme c d' := by
  have hinc : includes (pre ++ "psu.edu" ++ post) "psu.edu" = true :=
    (includes_iff _ _).2 ⟨pre, post, rfl⟩
  rw [defaultTheme_of_includes c d _ h hinc, defaultTheme_of_includes c d' _ h hinc]
  exact ⟨rfl, rfl⟩

theorem defaultTheme_psu_witness :
    Card.href { Card.initial with href := .str "https://www.psu.edu/about" } =
        .str ("https://www." ++ "psu.edu" ++ "/about") ∧
    (defaultTheme { Card.initial with href := .str "https://www.psu.edu/about" } (drawFor 7) =
        .ok "var(--ddd-primary-2)" ∧
      defaultTheme { Card.initial with href := .str "https://www.psu.edu/about" } (drawFor 7) =
      defaultTheme { Card.initial with href := .str "https://www.psu.edu/about" } (drawFor 19)) :=
  ⟨congrArg JSVal.str (by decide),
    defaultTheme_psu { Card.initial with href := .str "https://www.psu.edu/about" }
      "https://www." "/about" (congrArg JSVal.str (by decide)) (drawFor 7) (drawFor 19)⟩

/-! ## Lemmas: the runs of `fetchData` -/

/-- The state a run ends in when its `catch` block has run on the state `r`. -/
theorem caught_facts (d : Draw) (r : Card) :
    ({ (catchAssignments d r).1 with loadingState := false } : Card).title =
      .str "No Preview Available" ∧
    ({ (catchAssignments d r).1 with loadingState := false } : Card).description = .str "" ∧
    ({ (catchAssignments d r).1 with loadingState := false } : Card).image = .str "" ∧
    ({ (catchAssignments d r).1 with loadingState := false } : Card).link = .str "" ∧
    ({ (catchAssignments d r).1 with loadingState := false } : Card).href = r.href ∧
    defaultTheme { (catchAssignments d r).1 with loadingState := false } d = defaultTheme r d ∧
    (∀ v, defaultTheme r d = .ok v →
      ({ (catchAssignments d r).1 with loadingState := false } : Card).themeColor = .str v ∧
      (catchAssignments d r).2 = none) ∧
    (∀ e, defaultTheme r d = .error e →
      ({ (catchAssignments d r).1 with loadingState := false } : Card).themeColor =
        r.themeColor ∧
      (catchAssignments d r).2 = some e) := by
  obtain ⟨h1, h2, h3, h4, h5, -, h7, h8⟩ := catchAssignments_facts d r
  exact ⟨h1, h2, h3, h4, h5, defaultTheme_congr r _ d h5, h7, h8⟩

theorem fetchData_rejected (link : JSVal) (c0 : Card) (reason : String)
    (during1 during2 : Card → Card) (d : Draw) :
    fetchData link c0 (.rejected reason) during1 during2 d =
      { atRequest := { c0 with loadingState := true }
        requests := [requestUrl link]
        final :=
          { (catchAssignments d (during1 { c0 with loadingState := true })).1 with
            loadingState := false }
        log := [.error "Error fetching metadata:" (.rejected reason)]
        thrown := (catchAssignments d (during1 { c0 with loadingState := true })).2 } := rfl

theorem fetchData_not_ok (link : JSVal) (c0 : Card) (status : Nat) (body : Except String JSVal)
    (during1 during2 : Card → Card) (d : Draw) :
    fetchData link c0 (.response false status body) during1 during2 d =
      { atRequest := { c0 with loadingState := true }
        requests := [requestUrl link]
        final :=
          { (catchAssignments d (during1 { c0 with loadingState := true })).1 with
            loadingState := false }
        log := [.error "Error fetching metadata:"
          (.error ("Response Status: " ++ toString status))]
        thrown := (catchAssignments d (during1 { c0 with loadingState := true })).2 } := rfl

theorem fetchData_body_rejected (link : JSVal) (c0 : Card) (status : Nat) (reason : String)
    (during1 during2 : Card → Card) (d : Draw) :
    fetchData link c0 (.response true status (.error reason)) during1 during2 d =
      { atRequest := { c0 with loadingState := true }
        requests := [requestUrl link]
        final :=
          { (catchAssignments d (during2 (during1 { c0 with loadingState := true }))).1 with
            loadingState := false }
        log := [.error "Error fetching metadata:" (.rejected reason)]
        thrown :=
          (catchAssignments d (during2 (during1 { c0 with loadingState := true }))).2 } := rfl

/-- The run on a parsed body when the first read `json.data["og:title"]` throws `e`. -/
theorem fetchData_throwing_body (link : JSVal) (c0 : Card) (status : Nat) (json : JSVal)
    (during1 during2 : Card → Card) (d : Draw) (e : JSError)
    (h : dataField json "og:title" = .error e) :
    fetchData link c0 (.response true status (.ok json)) during1 during2 d =
      { atRequest := { c0 with loadingState := true }
        requests := [requestUrl link]
        final :=
          { (catchAssignments d (during2 (during1 { c0 with loadingState := true }))).1 with
            loadingState := false }
        log := [.error "Error fetching metadata:" e]
        thrown :=
          (catchAssignments d (during2 (during1 { c0 with loadingState := true }))).2 } := by
  simp only [fetchData, fetchDataStart, Bool.not_true, Bool.false_eq_true, if_false,
    tryAssignments_error link json d _ e h]

/-- The run on a parsed body when the reads `json.data[key]` answer `get key`
and the right-hand side of the `themeColor` assignment evaluates to `v`. -/
theorem fetchData_parsed_ok (link : JSVal) (c0 : Card) (status : Nat) (json : JSVal)
    (during1 during2 : Card → Card) (d : Draw)
    (get : String → JSVal) (h : ∀ key, dataField json key = .ok (get key)) (v : JSVal)
    (hv : orElse (.ok (get "theme-color"))
      (themeValue (during2 (during1 { c0 with loadingState := true })) d) = .ok v) :
    fetchData link c0 (.response true status (.ok json)) during1 during2 d =
      { atRequest := { c0 with loadingState := true }
        requests := [requestUrl link]
        final :=
          { during2 (during1 { c0 with loadingState := true }) with
            title := pick (get "og:title") (pick (get "title") (.str "No Title Available")),
            description := pick (get "description") (.str "No Description Available"),
            image := pick (get "image") (pick (get "logo") (pick (get "og:image") (.str ""))),
            link := pick (get "url") link,
            themeColor := v,
            loadingState := false }
        log := []
        thrown := none } := by
  simp only [fetchData, fetchDataStart, Bool.not_true, Bool.false_eq_true, if_false,
    tryAssignments_ok link json d _ get h, hv]

/-- The run on a parsed body when the reads `json.data[key]` answer `get key`
and the right-hand side of the `themeColor` assignment throws `e`: the four
fields already written are overwritten by the `catch` block. -/
theorem fetchData_parsed_throw (link : JSVal) (c0 : Card) (status : Nat) (json : JSVal)
    (during1 during2 : Card → Card) (d : Draw)
    (get : String → JSVal) (h : ∀ key, dataField json key = .ok (get key)) (e : JSError)
    (hv : orElse (.ok (get "theme-color"))
      (themeValue (during2 (during1 { c0 with loadingState := true })) d) = .error e) :
    fetchData link c0 (.response true status (.ok json)) during1 during2 d =
      { atRequest := { c0 with loadingState := true }
        requests := [requestUrl link]
        final :=
          { (catchAssignments d
              { during2 (during1 { c0 with loadingState := true }) with
                title := pick (get "og:title") (pick (get "title") (.str "No Title Available")),
                description := pick (get "description") (.str "No Description Available"),
                image := pick (get "image")
                  (pick (get "logo") (pick (get "og:image") (.str ""))),
                link := pick (get "url") link }).1 with
            loadingState := false }
        log := [.error "Error fetching metadata:" e]
        thrown :=
          (catchAssignments d
              { during2 (during1 { c0 with loadingState := true }) with
                title := pick (get "og:title") (pick (get "title") (.str "No Title Available")),
                description := pick (get "description") (.str "No Description Available"),
                image := pick (get "image")
                  (pick (get "logo") (pick (get "og:image") (.str ""))),
                link := pick (get "url") link }).2 } := by
  simp only [fetchData, fetchDataStart, Bool.not_true, Bool.false_eq_true, if_false,
    tryAssignments_ok link json d _ get h, hv]

/-- Every run of `fetchData` either goes through the `catch` block, entered
on a state `r` that has the `href` and the `themeColor` the component had when
the run last resumed, or completes the `try` block on a parsed body. -/
theorem fetchData_shape (link : JSVal) (c0 : Card) (out : FetchOutcome)
    (during1 during2 : Card → Card) (d : Draw) :
    (∃ r e,
      ((r.href = (during1 { c0 with loadingState := true }).href ∧
          r.themeColor = (during1 { c0 with loadingState := true }).themeColor) ∨
        (r.href = (during2 (during1 { c0 with loadingState := true })).href ∧
          r.themeColor = (during2 (during1 { c0 with loadingState := true })).themeColor)) ∧
      (fetchData link c0 out during1 during2 d).final =
        { (catchAssignments d r).1 with loadingState := false } ∧
      (fetchData link c0 out during1 during2 d).log = [.error "Error fetching metadata:" e] ∧
      (fetchData link c0 out during1 during2 d).thrown = (catchAssignments d r).2) ∨
    (∃ (status : Nat) (json : JSVal) (get : String → JSVal) (v : JSVal),
      out = .response true status (.ok json) ∧
      (∀ key, dataField json key = .ok (get key)) ∧
      orElse (.ok (get "theme-color"))
        (themeValue (during2 (during1 { c0 with loadingState := true })) d) = .ok v ∧
      (fetchData link c0 out during1 during2 d).final.themeColor = v ∧
      (fetchData link c0 out during1 during2 d).final.href =
        (during2 (during1 { c0 with loadingState := true })).href ∧
      (fetchData link c0 out during1 during2 d).log = [] ∧
      (fetchData link c0 out during1 during2 d).thrown = none) := by
  cases out with
  | rejected reason =>
    exact Or.inl ⟨_, _, Or.inl ⟨rfl, rfl⟩, rfl, rfl, rfl⟩
  | response ok status body =>
    cases ok with
    | false => exact Or.inl ⟨_, _, Or.inl ⟨rfl, rfl⟩, rfl, rfl, rfl⟩
    | true =>
      cases body with
      | error reason => exact Or.inl ⟨_, _, Or.inr ⟨rfl, rfl⟩, rfl, rfl, rfl⟩
      | ok json =>
        rcases dataField_cases json with ⟨e, he⟩ | ⟨get, hget⟩
        · rw [fetchData_throwing_body link c0 status json during1 during2 d e (he _)]
          exact Or.inl ⟨_, _, Or.inr ⟨rfl, rfl⟩, rfl, rfl, rfl⟩
        · cases hv : orElse (.ok (get "theme-color"))
              (themeValue (during2 (during1 { c0 with loadingState := true })) d) with
          | error e =>
            rw [fetchData_parsed_throw link c0 status json during1 during2 d get hget e hv]
            exact Or.inl ⟨_, _, Or.inr ⟨rfl, rfl⟩, rfl, rfl, rfl⟩
          | ok v =>
            rw [fetchData_parsed_ok link c0 status json during1 during2 d get hget v hv]
            exact Or.inr ⟨status, json, get, v, rfl, hget, hv, rfl, rfl, rfl, rfl⟩

/-- What a run that went through the `catch` block, entered on the state `r`,
ends with. -/
theorem caught_run_facts (run : FetchRun) (d : Draw) (r : Card)
    (hf : run.final = { (catchAssignments d r).1 with loadingState := false })
    (ht : run.thrown = (catchAssignments d r).2) :
    run.final.title = .str "No Preview Available" ∧ run.final.description = .str "" ∧
    run.final.image = .str "" ∧ run.final.link = .str "" ∧ run.final.loadingState = false ∧
    run.final.href = r.href ∧
    (∀ v, defaultTheme run.final d = .ok v →
      run.final.themeColor = .str v ∧ run.thrown = none) ∧
    (∀ s, r.href = .str s →
      ∃ v, defaultTheme run.final d = .ok v ∧ run.final.themeColor = .str v ∧
        run.thrown = none) ∧
    (∀ e, defaultTheme run.final d = .error e →
      run.final.themeColor = r.themeColor ∧ run.thrown = some e) := by
  obtain ⟨h1, h2, h3, h4, h5, h6, h7, h8⟩ := caught_facts d r
  rw [hf, ht]
  refine ⟨h1, h2, h3, h4, rfl, h5, ?_, ?_, ?_⟩
  · intro v hv
    rw [h6] at hv
    exact h7 v hv
  · intro s hs
    have hd := defaultTheme_str r d s hs
    exact ⟨_, h6.trans hd, h7 _ hd⟩
  · intro e he
    rw [h6] at he
    exact h8 e he

/-- A rejection of the promise of `fetchData` is a throw of `defaultTheme()`
on the final state. -/
theorem fetchData_thrown_sound (link : JSVal) (c0 : Card) (out : FetchOutcome)
    (during1 during2 : Card → Card) (d : Draw) (e : JSError)
    (h : (fetchData link c0 out during1 during2 d).thrown = some e) :
    defaultTheme (fetchData link c0 out during1 during2 d).final d = .error e := by
  rcases fetchData_shape link c0 out during1 during2 d with
    ⟨r, e', -, hf, -, ht⟩ | ⟨_, _, _, _, -, -, -, -, -, -, ht⟩
  · obtain ⟨-, -, -, -, -, -, hok, -, herr⟩ := caught_run_facts _ d r hf ht
    cases hd : defaultTheme (fetchData link c0 out during1 during2 d).final d with
    | error e2 =>
      have h2 := (herr e2 hd).2
      rw [h] at h2
      cases h2
      rfl
    | ok v =>
      have h2 := (hok v hd).2
      rw [h] at h2
      cases h2
  · rw [h] at ht
    cases ht

/-- The promise of `fetchData` fulfils when `defaultTheme()` returns on the
final state. -/
theorem fetchData_thrown_none (link : JSVal) (c0 : Card) (out : FetchOutcome)
    (during1 during2 : Card → Card) (d : Draw) (v : String)
    (h : defaultTheme (fetchData link c0 out during1 during2 d).final d = .ok v) :
    (fetchData link c0 out during1 during2 d).thrown = none := by
  rcases fetchData_shape link c0 out during1 during2 d with
    ⟨r, e', -, hf, -, ht⟩ | ⟨_, _, _, _, -, -, -, -, -, -, ht⟩
  · exact ((caught_run_facts _ d r hf ht).2.2.2.2.2.2.1 v h).2
  · exact ht

/-- The `href` of the final state is the one the component had when the run
last resumed. -/
theorem fetchData_final_href (link : JSVal) (c0 : Card) (out : FetchOutcome)
    (during1 during2 : Card → Card) (d : Draw) :
    (fetchData link c0 out during1 during2 d).final.href =
        (during1 { c0 with loadingState := true }).href ∨
      (fetchData link c0 out during1 during2 d).final.href =
        (during2 (during1 { c0 with loadingState := true })).href := by
  rcases fetchData_shape link c0 out during1 during2 d with
    ⟨r, e', hr, hf, -, ht⟩ | ⟨_, _, _, _, -, -, -, -, hh, -, -⟩
  · have h5 := (caught_run_facts _ d r hf ht).2.2.2.2.2.1
    rcases hr with ⟨h, -⟩ | ⟨h, -⟩
    · exact Or.inl (h5.trans h)
    · exact Or.inr (h5.trans h)
  · exact Or.inr hh

/-! ## `fetchData` -/

/-- C1, as stated, fails: `fetchData` is called while `href` is
`https://example.com`, the `href` attribute is removed while the request is
pending (`href` is then `null`), and the request fails. In the `catch` block
`defaultTheme()` throws: `themeColor` keeps its old value `""`, which is no
value returned by `defaultTheme()`, and the promise rejects. -/
theorem fetchData_failure_href_removed :
    (fetchData (.str "https://example.com")
      { Card.initial with href := .str "https://example.com" }
      (.rejected "Failed to fetch") (fun c => { c with href := .null }) id
      (drawFor 7)).final.themeColor = .str "" ∧
    defaultTheme
      (fetchData (.str "https://example.com")
        { Card.initial with href := .str "https://example.com" }
        (.rejected "Failed to fetch") (fun c => { c with href := .null }) id
        (drawFor 7)).final (drawFor 7) =
      .error (.typeError "Cannot read properties of null") ∧
    (fetchData (.str "https://example.com")
      { Card.initial with href := .str "https://example.com" }
      (.rejected "Failed to fetch") (fun c => { c with href := .null }) id
      (drawFor 7)).thrown = some (.typeError "Cannot read properties of null") :=
  ⟨rfl, rfl, rfl⟩

/-- C1, amended: when `fetch` rejects (network error), or resolves with a
response whose `ok` is false, the run of `fetchData(link)` ends with
`title = "No Preview Available"`, `description`, `image` and `link` empty,
`loadingState = false` and exactly one `console.error` entry, carrying the
error, for every initial state, link, interference and draw; `themeColor` is
the value `defaultTheme()` returns whenever that call returns, as it does when
`href` holds a string when the run resumes. When the call throws, `themeColor`
is left as it was and the promise rejects with that throw. -/
theorem fetchData_failure_fallback (link : JSVal) (c0 : Card) (during1 during2 : Card → Card)
    (d : Draw) (reason : String) (status : Nat) (body : Except String JSVal) :
    (let run := fetchData link c0 (.rejected reason) during1 during2 d
     run.final.title = .str "No Preview Available" ∧ run.final.description = .str "" ∧
     run.final.image = .str "" ∧ run.final.link = .str "" ∧ run.final.loadingState = false ∧
     run.log = [.error "Error fetching metadata:" (.rejected reason)] ∧
     (∀ v, defaultTheme run.final d = .ok v →
       run.final.themeColor = .str v ∧ run.thrown = none) ∧
     (∀ s, (during1 run.atRequest).href = .str s →
       ∃ v, defaultTheme run.final d = .ok v ∧ run.final.themeColor = .str v ∧
         run.thrown = none) ∧
     (∀ e, defaultTheme run.final d = .error e →
       run.final.themeColor = (during1 run.atRequest).themeColor ∧ run.thrown = some e)) ∧
    (let run := fetchData link c0 (.response false status body) during1 during2 d
     run.final.title = .str "No Preview Available" ∧ run.final.description = .str "" ∧
     run.final.image = .str "" ∧ run.final.link = .str "" ∧ run.final.loadingState = false ∧
     run.log = [.error "Error fetching metadata:"
       (.error ("Response Status: " ++ toString status))] ∧
     (∀ v, defaultTheme run.final d = .ok v →
       run.final.themeColor = .str v ∧ run.thrown = none) ∧
     (∀ s, (during1 run.atRequest).href = .str s →
       ∃ v, defaultTheme run.final d = .ok v ∧ run.final.themeColor = .str v ∧
         run.thrown = none) ∧
     (∀ e, defaultTheme run.final d = .error e →
       run.final.themeColor = (during1 run.atRequest).themeColor ∧ run.thrown = some e)) := by
  constructor
  · obtain ⟨h1, h2, h3, h4, h5, -, h7, h8, h9⟩ :=
      caught_run_facts (fetchData link c0 (.rejected reason) during1 during2 d) d
        (during1 { c0 with loadingState := true }) rfl rfl
    exact ⟨h1, h2, h3, h4, h5, rfl, h7, h8, h9⟩
  · obtain ⟨h1, h2, h3, h4, h5, -, h7, h8, h9⟩ :=
      caught_run_facts (fetchData link c0 (.response false status body) during1 during2 d) d
        (during1 { c0 with loadingState := true }) rfl rfl
    exact ⟨h1, h2, h3, h4, h5, rfl, h7, h8, h9⟩

theorem fetchData_failure_fallback_witness :
    ((id (fetchData (.str "https://example.com")
      { Card.initial with href := .str "https://example.com" }
      (.rejected "Failed to fetch") id id (drawFor 7)).atRequest).href =
        .str "https://example.com" ∧
    ∃ v,
      defaultTheme (fetchData (.str "https://example.com")
        { Card.initial with href := .str "https://example.com" }
        (.rejected "Failed to fetch") id id (drawFor 7)).final (drawFor 7) = .ok v ∧
      (fetchData (.str "https://example.com")
        { Card.initial with href := .str "https://example.com" }
        (.rejected "Failed to fetch") id id (drawFor 7)).final.themeColor = .str v ∧
      (fetchData (.str "https://example.com")
        { Card.initial with href := .str "https://example.com" }
        (.rejected "Failed to fetch") id id (drawFor 7)).thrown = none) ∧
    (defaultTheme (fetchData (.str "https://example.com")
        { Card.initial with href := .str "https://example.com" }
        (.response false 404 (.error "")) (fun c => { c with href := .null }) id
        (drawFor 7)).final (drawFor 7) =
        .error (.typeError "Cannot read properties of null") ∧
      (fetchData (.str "https://example.com")
        { Card.initial with href := .str "https://example.com" }
        (.response false 404 (.error "")) (fun c => { c with href := .null }) id
        (drawFor 7)).final.themeColor = .str "" ∧
      (fetchData (.str "https://example.com")
        { Card.initial with href := .str "https://example.com" }
        (.response false 404 (.error "")) (fun c => { c with href := .null }) id
        (drawFor 7)).thrown = some (.typeError "Cannot read properties of null")) :=
  ⟨⟨rfl, (fetchData_failure_fallback (.str "https://example.com")
      { Card.initial with href := .str "https://example.com" } id id (drawFor 7)
      "Failed to fetch" 404 (.error "")).1.2.2.2.2.2.2.2.1 "https://example.com" rfl⟩,
   ⟨rfl, (fetchData_failure_fallback (.str "https://example.com")
      { Card.initial with href := .str "https://example.com" }
      (fun c => { c with href := .null }) id (drawFor 7)
      "Failed to fetch" 404 (.error "")).2.2.2.2.2.2.2.2.2 _ rfl⟩⟩

/-- C2, as stated, fails: on the successful response of the spec's example
(no `theme-color` in `data`), with the `href` attribute removed while the
request is pending, `defaultTheme()` throws inside `try` after four fields are
written; the `catch` block logs the error and overwrites them, so `title` ends
as `"No Preview Available"`, not `"About Us"`, an error is logged, and the
promise rejects. -/
theorem fetchData_success_href_removed :
    (fetchData (.str "https://psu.edu/about")
      { Card.initial with href := .str "https://psu.edu/about" }
      (.response true 200 (.ok (.obj
        [("data", .obj [("title", .str "About Us"), ("description", .str "Info"),
          ("image", .str ""), ("url", .str "https://psu.edu/about")])])))
      (fun c => { c with href := .null }) id (drawFor 7)).final.title =
        .str "No Preview Available" ∧
    (fetchData (.str "https://psu.edu/about")
      { Card.initial with href := .str "https://psu.edu/about" }
      (.response true 200 (.ok (.obj
        [("data", .obj [("title", .str "About Us"), ("description", .str "Info"),
          ("image", .str ""), ("url", .str "https://psu.edu/about")])])))
      (fun c => { c with href := .null }) id (drawFor 7)).log =
        [.error "Error fetching metadata:" (.typeError "Cannot read properties of null")] ∧
    (fetchData (.str "https://psu.edu/about")
      { Card.initial with href := .str "https://psu.edu/about" }
      (.response true 200 (.ok (.obj
        [("data", .obj [("title", .str "About Us"), ("description", .str "Info"),
          ("image", .str ""), ("url", .str "https://psu.edu/about")])])))
      (fun c => { c with href := .null }) id (drawFor 7)).thrown =
        some (.typeError "Cannot read properties of null") :=
  ⟨rfl, rfl, rfl⟩

/-- C2, amended: on a successful response whose parsed body has a `data`
object, provided `data` has a truthy `theme-color` or `href` holds a string
when the run resumes after `response.json()`, `fetchData(link)` ends with the
fields set by the fallback chains (a value that is absent or falsy gives way to
the next one): `title` from `og:title`, `title`, `"No Title Available"`;
`description` from `description`, `"No Description Available"`; `image` from
`image`, `logo`, `og:image`, `""`; `link` from `url`, the argument `link`;
`themeColor` from `theme-color`, the value `defaultTheme()` returns; with
`loadingState = false`, nothing logged and nothing thrown. -/
theorem fetchData_success_fields (link : JSVal) (c0 : Card) (status : Nat)
    (fields dataFields : List (String × JSVal)) (during1 during2 : Card → Card) (d : Draw)
    (hdata : lookup "data" fields = .obj dataFields)
    (hth : truthy (lookup "theme-color" dataFields) = true ∨
      ∃ s, (during2 (during1 { c0 with loadingState := true })).href = .str s) :
    let run := fetchData link c0 (.response true status (.ok (.obj fields))) during1 during2 d
    run.final.title =
      pick (lookup "og:title" dataFields)
        (pick (lookup "title" dataFields) (.str "No Title Available")) ∧
    run.final.description =
      pick (lookup "description" dataFields) (.str "No Description Available") ∧
    run.final.image =
      pick (lookup "image" dataFields)
        (pick (lookup "logo" dataFields) (pick (lookup "og:image" dataFields) (.str ""))) ∧
    run.final.link = pick (lookup "url" dataFields) link ∧
    (truthy (lookup "theme-color" dataFields) = true →
      run.final.themeColor = lookup "theme-color" dataFields) ∧
    (truthy (lookup "theme-color" dataFields) = false →
      ∃ v, defaultTheme run.final d = .ok v ∧ run.final.themeColor = .str v) ∧
    run.final.loadingState = false ∧ run.log = [] ∧ run.thrown = none := by
  have h : ∀ key, dataField (.obj fields) key = .ok (lookup key dataFields) := by
    intro key
    simp [dataField, member, hdata]
  cases htc : truthy (lookup "theme-color" dataFields) with
  | true =>
    have hv : orElse (.ok (lookup "theme-color" dataFields))
        (themeValue (during2 (during1 { c0 with loadingState := true })) d) =
        .ok (lookup "theme-color" dataFields) := by
      show (if truthy (lookup "theme-color" dataFields) then _ else _) = _
      rw [if_pos htc]
    rw [fetchData_parsed_ok link c0 status _ during1 during2 d _ h _ hv]
    exact ⟨rfl, rfl, rfl, rfl, fun _ => rfl, fun hf => absurd hf (by simp), rfl, rfl, rfl⟩
  | false =>
    obtain ⟨s, hs⟩ : ∃ s, (during2 (during1 { c0 with loadingState := true })).href = .str s := by
      rcases hth with hth | hth
      · rw [htc] at hth
        cases hth
      · exact hth
    have hd := defaultTheme_str (during2 (during1 { c0 with loadingState := true })) d s hs
    have hv : orElse (.ok (lookup "theme-color" dataFields))
        (themeValue (during2 (during1 { c0 with loadingState := true })) d) =
        .ok (.str (if includes s "psu.edu" then "var(--ddd-primary-2)"
          else primary (floorTimes25 d))) := by
      show (if truthy (lookup "theme-color" dataFields) then _ else _) = _
      rw [if_neg (by rw [htc]; exact Bool.false_ne_true)]
      unfold themeValue
      rw [hd]
    rw [fetchData_parsed_ok link c0 status _ during1 during2 d _ h _ hv]
    exact ⟨rfl, rfl, rfl, rfl, fun hf => absurd hf (by simp), fun _ =>
      ⟨_, (defaultTheme_congr (during2 (during1 { c0 with loadingState := true })) _ d rfl).trans
        hd, rfl⟩, rfl, rfl, rfl⟩

theorem fetchData_success_fields_witness :
    (lookup "data"
        [("data", .obj [("title", .str "About Us"), ("description", .str "Info"),
          ("image", .str ""), ("url", .str "https://psu.edu/about")])] =
      .obj [("title", .str "About Us"), ("description", .str "Info"),
          ("image", .str ""), ("url", .str "https://psu.edu/about")] ∧
     (truthy (lookup "theme-color" [("title", .str "About Us"), ("description", .str "Info"),
          ("image", .str ""), ("url", .str "https://psu.edu/about")]) = true ∨
      ∃ s, (id (id { ({ Card.initial with href := .str "https://psu.edu/about" } : Card) with
          loadingState := true })).href = .str s)) ∧
    (let run := fetchData (.str "https://psu.edu/about")
        { Card.initial with href := .str "https://psu.edu/about" }
        (.response true 200 (.ok (.obj
          [("data", .obj [("title", .str "About Us"), ("description", .str "Info"),
            ("image", .str ""), ("url", .str "https://psu.edu/about")])])))
        id id (drawFor 7)
     run.final.title = .str "About Us" ∧ run.final.description = .str "Info" ∧
     run.final.image = .str "" ∧ run.final.link = .str "https://psu.edu/about" ∧
     (truthy (lookup "theme-color" [("title", .str "About Us"), ("description", .str "Info"),
          ("image", .str ""), ("url", .str "https://psu.edu/about")]) = true →
       run.final.themeColor =
         lookup "theme-color" [("title", .str "About Us"), ("description", .str "Info"),
          ("image", .str ""), ("url", .str "https://psu.edu/about")]) ∧
     (truthy (lookup "theme-color" [("title", .str "About Us"), ("description", .str "Info"),
          ("image", .str ""), ("url", .str "https://psu.edu/about")]) = false →
       ∃ v, defaultTheme run.final (drawFor 7) = .ok v ∧ run.final.themeColor = .str v) ∧
     run.final.loadingState = false ∧ run.log = [] ∧ run.thrown = none) ∧
    (fetchData (.str "https://psu.edu/about")
        { Card.initial with href := .str "https://psu.edu/about" }
        (.response true 200 (.ok (.obj
          [("data", .obj [("title", .str "About Us"), ("description", .str "Info"),
            ("image", .str ""), ("url", .str "https://psu.edu/about")])])))
        id id (drawFor 7)).final.themeColor = .str "var(--ddd-primary-2)" ∧
    ((lookup "data" [("data", .obj [("theme-color", .str "#1e407c")])] =
        .obj [("theme-color", .str "#1e407c")] ∧
      truthy (lookup "theme-color" [("theme-color", .str "#1e407c")]) = true) ∧
     (fetchData (.str "https://psu.edu/about")
        { Card.initial with href := .str "https://psu.edu/about" }
        (.response true 200 (.ok (.obj [("data", .obj [("theme-color", .str "#1e407c")])])))
        (fun c => { c with href := .null }) id (drawFor 7)).final.themeColor =
        .str "#1e407c") :=
  ⟨⟨rfl, Or.inr ⟨_, rfl⟩⟩,
   fetchData_success_fields (.str "https://psu.edu/about")
    { Card.initial with href := .str "https://psu.edu/about" } 200
    [("data", .obj [("title", .str "About Us"), ("description", .str "Info"),
      ("image", .str ""), ("url", .str "https://psu.edu/about")])]
    [("title", .str "About Us"), ("description", .str "Info"),
      ("image", .str ""), ("url", .str "https://psu.edu/about")]
    id id (drawFor 7) rfl (Or.inr ⟨_, rfl⟩),
   rfl,
   ⟨rfl, rfl⟩,
   (fetchData_success_fields (.str "https://psu.edu/about")
    { Card.initial with href := .str "https://psu.edu/about" } 200
    [("data", .obj [("theme-color", .str "#1e407c")])] [("theme-color", .str "#1e407c")]
    (fun c => { c with href := .null }) id (drawFor 7) rfl (Or.inl rfl)).2.2.2.2.1 rfl⟩

/-- C3, as stated, fails: the response is successful and its body `{}` has no
`data`; the `href` attribute is removed while `response.json()` is pending.
The `TypeError` of `json.data["og:title"]` is caught, and in the `catch` block
`defaultTheme()` throws: the promise of `fetchData` rejects. -/
theorem fetchData_rejects_href_removed :
    (fetchData (.str "https://example.com")
      { Card.initial with href := .str "https://example.com" }
      (.response true 200 (.ok (.obj []))) id (fun c => { c with href := .null })
      (drawFor 7)).thrown = some (.typeError "Cannot read properties of null") ∧
    (fetchData (.str "https://example.com")
      { Card.initial with href := .str "https://example.com" }
      (.response true 200 (.ok (.obj []))) id (fun c => { c with href := .null })
      (drawFor 7)).thrown ≠ none :=
  ⟨rfl, fun h => nomatch h⟩

/-- C3, amended: for every link, initial state, outcome of the request (network
error, non-success status, body that fails to parse, body with no `data`),
interference and draw, the only error the promise of `fetchData` can reject
with is a throw of `defaultTheme()`, and it fulfils whenever `href` holds a
string when the run resumes. On a successful response whose parsed body has no
`data` (the body is `null`, or `json.data` is `undefined` or `null`), the run
ends with `title = "No Preview Available"`, `description`, `image` and `link`
empty and one logged error, in the very state, and with the very completion,
of a run whose `response.json()` rejects, or whose `fetch` rejects under the
same interference; with `href` a string, `themeColor` is the default theme
colour and the promise fulfils. -/
theorem fetchData_never_throws (link : JSVal) (c0 : Card) (out : FetchOutcome)
    (during1 during2 : Card → Card) (d : Draw) :
    (∀ e, (fetchData link c0 out during1 during2 d).thrown = some e →
      defaultTheme (fetchData link c0 out during1 during2 d).final d = .error e) ∧
    ((∃ s, (fetchData link c0 out during1 during2 d).final.href = .str s) →
      (fetchData link c0 out during1 during2 d).thrown = none) ∧
    ((fetchData link c0 out during1 during2 d).final.href =
        (during1 (fetchData link c0 out during1 during2 d).atRequest).href ∨
      (fetchData link c0 out during1 during2 d).final.href =
        (during2 (during1 (fetchData link c0 out during1 during2 d).atRequest)).href) ∧
    ∀ (status : Nat) (json : JSVal) (reason : String),
      (∀ v, member json "data" = .ok v → v = .undefined ∨ v = .null) →
      let run := fetchData link c0 (.response true status (.ok json)) during1 during2 d
      run.final.title = .str "No Preview Available" ∧ run.final.description = .str "" ∧
      run.final.image = .str "" ∧ run.final.link = .str "" ∧
      run.final.loadingState = false ∧
      (∃ e, run.log = [.error "Error fetching metadata:" e]) ∧
      run.final =
        (fetchData link c0 (.response true status (.error reason)) during1 during2 d).final ∧
      run.thrown =
        (fetchData link c0 (.response true status (.error reason)) during1 during2 d).thrown ∧
      run.final =
        (fetchData link c0 (.rejected reason) (fun c => during2 (during1 c)) id d).final ∧
      run.thrown =
        (fetchData link c0 (.rejected reason) (fun c => during2 (during1 c)) id d).thrown ∧
      (∀ s, run.final.href = .str s →
        ∃ v, defaultTheme run.final d = .ok v ∧ run.final.themeColor = .str v ∧
          run.thrown = none) := by
  refine ⟨fun e h => fetchData_thrown_sound link c0 out during1 during2 d e h, ?_,
    fetchData_final_href link c0 out during1 during2 d, ?_⟩
  · rintro ⟨s, hs⟩
    exact fetchData_thrown_none link c0 out during1 during2 d _ (defaultTheme_str _ d s hs)
  · intro status json reason hno
    obtain ⟨e, he⟩ : ∃ e, dataField json "og:title" = .error e := by
      unfold dataField
      cases hm : member json "data" with
      | error e => exact ⟨e, rfl⟩
      | ok v =>
        rcases hno v hm with rfl | rfl
        · exact ⟨_, rfl⟩
        · exact ⟨_, rfl⟩
    rw [fetchData_throwing_body link c0 status json during1 during2 d e he]
    obtain ⟨h1, h2, h3, h4, h5, h6, -, h8, -⟩ :=
      caught_run_facts (fetchData link c0 (.response true status (.error reason))
        during1 during2 d) d (during2 (during1 { c0 with loadingState := true })) rfl rfl
    refine ⟨h1, h2, h3, h4, h5, ⟨e, rfl⟩, rfl, rfl, rfl, rfl, ?_⟩
    intro s hs
    exact h8 s (h6.symm.trans hs)

theorem fetchData_never_throws_witness :
    ((∃ s, (fetchData (.str "https://example.com")
        { Card.initial with href := .str "https://example.com" }
        (.response true 200 (.ok (.obj []))) id id (drawFor 7)).final.href = .str s) ∧
      (fetchData (.str "https://example.com")
        { Card.initial with href := .str "https://example.com" }
        (.response true 200 (.ok (.obj []))) id id (drawFor 7)).thrown = none) ∧
    ((∀ v, member (.obj []) "data" = .ok v → v = .undefined ∨ v = .null) ∧
      (fetchData (.str "https://example.com")
        { Card.initial with href := .str "https://example.com" }
        (.response true 200 (.ok (.obj []))) id id (drawFor 7)).final.title =
          .str "No Preview Available" ∧
      (fetchData (.str "https://example.com")
        { Card.initial with href := .str "https://example.com" }
        (.response true 200 (.ok (.obj []))) id id (drawFor 7)).final.themeColor =
          .str "var(--ddd-primary-7)") ∧
    ((fetchData (.str "https://example.com")
        { Card.initial with href := .str "https://example.com" }
        (.response true 200 (.error "Unexpected token")) id (fun c => { c with href := .null })
        (drawFor 7)).thrown = some (.typeError "Cannot read properties of null") ∧
      defaultTheme (fetchData (.str "https://example.com")
        { Card.initial with href := .str "https://example.com" }
        (.response true 200 (.error "Unexpected token")) id (fun c => { c with href := .null })
        (drawFor 7)).final (drawFor 7) =
        .error (.typeError "Cannot read properties of null")) :=
  ⟨⟨⟨_, rfl⟩,
    (fetchData_never_throws (.str "https://example.com")
      { Card.initial with href := .str "https://example.com" }
      (.response true 200 (.ok (.obj []))) id id (drawFor 7)).2.1 ⟨_, rfl⟩⟩,
   ⟨fun v hv => Or.inl (by cases hv; rfl),
    ((fetchData_never_throws (.str "https://example.com")
      { Card.initial with href := .str "https://example.com" }
      (.response true 200 (.ok (.obj []))) id id (drawFor 7)).2.2.2 200 (.obj []) ""
      (fun v hv => Or.inl (by cases hv; rfl))).1,
    rfl⟩,
   ⟨rfl,
    (fetchData_never_throws (.str "https://example.com")
      { Card.initial with href := .str "https://example.com" }
      (.response true 200 (.error "Unexpected token")) id (fun c => { c with href := .null })
      (drawFor 7)).1 _ rfl⟩⟩

/-- C6: in every run of `fetchData`, `loadingState` is true, and nothing else
has changed, when `fetch(url)` is called, and `loadingState` is false when
the promise of `fetchData` settles; this for every initial state, link,
outcome of the request, interference and draw. -/
theorem fetchData_loading_flag (link : JSVal) (c0 : Card) (out : FetchOutcome)
    (during1 during2 : Card → Card) (d : Draw) :
    let run := fetchData link c0 out during1 during2 d
    run.atRequest = { c0 with loadingState := true } ∧
    run.atRequest.loadingState = true ∧
    run.requests = [requestUrl link] ∧
    run.final.loadingState = false :=
  ⟨rfl, rfl, rfl, rfl⟩

/-- C10, as stated, fails: `fetchData("https://psu.edu/about")` is called
while `href` is that URL, `href` is set to `https://example.com` while the
request is pending, the request fails and the draw gives 7. The link contains
`psu.edu`, yet `themeColor` ends as `var(--ddd-primary-7)`, not the
institutional `var(--ddd-primary-2)`. -/
theorem fetchData_theme_not_by_link :
    includes "https://psu.edu/about" "psu.edu" = true ∧
    (fetchData (.str "https://psu.edu/about")
      { Card.initial with href := .str "https://psu.edu/about" }
      (.rejected "Failed to fetch") (fun c => { c with href := .str "https://example.com" }) id
      (drawFor 7)).final.themeColor = .str "var(--ddd-primary-7)" ∧
    "var(--ddd-primary-7)" ≠ "var(--ddd-primary-2)" :=
  ⟨by decide, rfl, by decide⟩

/-- C10, amended: whenever a run of `fetchData(link)` falls back to the
default theme colour (failure, or a response that supplies no truthy
`theme-color`), the colour is decided by what the `href` field holds when the
run resumes, which is what the code running while the request was pending
left there. If `href` is then a string, `themeColor` ends as the institutional
colour when that string contains `psu.edu` and as `var(--ddd-primary-k)` for
some `k < 25` otherwise; so the colour is decided by `link` when `href` then
equals `link`. In general `themeColor` ends as the value `defaultTheme()`
returns, and when that call throws (`href` is `null`, say) `themeColor` is
left as it was and the promise rejects. -/
theorem fetchData_theme_by_href (link : JSVal) (c0 : Card) (out : FetchOutcome)
    (during1 during2 : Card → Card) (d : Draw)
    (hfall : ∀ status json v, out = .response true status (.ok json) →
      dataField json "theme-color" = .ok v → truthy v = false) :
    let run := fetchData link c0 out during1 during2 d
    (run.final.href = (during1 run.atRequest).href ∨
      run.final.href = (during2 (during1 run.atRequest)).href) ∧
    (∀ v, defaultTheme run.final d = .ok v → run.final.themeColor = .str v) ∧
    (∀ s, run.final.href = .str s → includes s "psu.edu" = true →
      run.final.themeColor = .str "var(--ddd-primary-2)") ∧
    (∀ s, run.final.href = .str s → includes s "psu.edu" = false →
      ∃ k, k < 25 ∧ run.final.themeColor = .str (primary k)) ∧
    (run.final.href = link → ∀ s, link = .str s →
      (includes s "psu.edu" = true → run.final.themeColor = .str "var(--ddd-primary-2)") ∧
      (includes s "psu.edu" = false →
        ∃ k, k < 25 ∧ run.final.themeColor = .str (primary k))) ∧
    (∀ e, defaultTheme run.final d = .error e →
      run.thrown = some e ∧
      (run.final.themeColor = (during1 run.atRequest).themeColor ∨
        run.final.themeColor = (during2 (during1 run.atRequest)).themeColor)) := by
  intro run
  have key : (∀ v, defaultTheme run.final d = .ok v → run.final.themeColor = .str v) ∧
      (∀ e, defaultTheme run.final d = .error e →
        run.thrown = some e ∧
        (run.final.themeColor = (during1 run.atRequest).themeColor ∨
          run.final.themeColor = (during2 (during1 run.atRequest)).themeColor)) := by
    rcases fetchData_shape link c0 out during1 during2 d with
      ⟨r, e', hr, hf, -, ht⟩ | ⟨status, json, get, v, hout, hget, hv, hcol, hh, -, ht⟩
    · obtain ⟨-, -, -, -, -, -, hok, -, herr⟩ := caught_run_facts run d r hf ht
      refine ⟨fun v hv => (hok v hv).1, fun e he => ⟨(herr e he).2, ?_⟩⟩
      rcases hr with ⟨-, h⟩ | ⟨-, h⟩
      · exact Or.inl ((herr e he).1.trans h)
      · exact Or.inr ((herr e he).1.trans h)
    · have hfalse : truthy (get "theme-color") = false :=
        hfall status json _ hout (hget "theme-color")
      have hv2 : themeValue (during2 (during1 { c0 with loadingState := true })) d = .ok v := by
        have : orElse (.ok (get "theme-color"))
            (themeValue (during2 (during1 { c0 with loadingState := true })) d) =
            themeValue (during2 (during1 { c0 with loadingState := true })) d := by
          show (if truthy (get "theme-color") then _ else _) = _
          rw [if_neg (by rw [hfalse]; exact Bool.false_ne_true)]
        rw [← this]
        exact hv
      have hdt : defaultTheme run.final d =
          defaultTheme (during2 (during1 { c0 with loadingState := true })) d :=
        defaultTheme_congr _ _ d hh
      unfold themeValue at hv2
      cases hd : defaultTheme (during2 (during1 { c0 with loadingState := true })) d with
      | error e2 =>
        rw [hd] at hv2
        cases hv2
      | ok s2 =>
        rw [hd] at hv2
        cases hv2
        refine ⟨fun v' hv' => ?_, fun e he => ?_⟩
        · rw [hdt, hd] at hv'
          cases hv'
          exact hcol
        · rw [hdt, hd] at he
          cases he
  have hinc : ∀ s, run.final.href = .str s → includes s "psu.edu" = true →
      run.final.themeColor = .str "var(--ddd-primary-2)" := fun s hs h =>
    key.1 _ (defaultTheme_of_includes _ d s hs h)
  have hnot : ∀ s, run.final.href = .str s → includes s "psu.edu" = false →
      ∃ k, k < 25 ∧ run.final.themeColor = .str (primary k) := fun s hs h =>
    ⟨floorTimes25 d, floorTimes25_lt d, key.1 _ (defaultTheme_of_not_includes _ d s hs h)⟩
  refine ⟨fetchData_final_href link c0 out during1 during2 d, key.1, hinc, hnot, ?_, key.2⟩
  intro heq s hs
  exact ⟨hinc s (heq.trans hs), hnot s (heq.trans hs)⟩

theorem fetchData_theme_by_href_witness :
    (∀ status json v,
      FetchOutcome.response true 200 (.ok (.obj [("data", .obj [("title", .str "About Us")])])) =
        .response true status (.ok json) →
      dataField json "theme-color" = .ok v → truthy v = false) ∧
    ((fetchData (.str "https://psu.edu/about")
        { Card.initial with href := .str "https://psu.edu/about" }
        (.response true 200 (.ok (.obj [("data", .obj [("title", .str "About Us")])])))
        (fun c => { c with href := .str "https://example.com" }) id (drawFor 7)).final.href =
        .str "https://example.com" ∧
      includes "https://example.com" "psu.edu" = false) ∧
    (∃ k, k < 25 ∧
      (fetchData (.str "https://psu.edu/about")
        { Card.initial with href := .str "https://psu.edu/about" }
        (.response true 200 (.ok (.obj [("data", .obj [("title", .str "About Us")])])))
        (fun c => { c with href := .str "https://example.com" }) id
        (drawFor 7)).final.themeColor = .str (primary k)) ∧
    (fetchData (.str "https://psu.edu/about")
        { Card.initial with href := .str "https://psu.edu/about" }
        (.response true 200 (.ok (.obj [("data", .obj [("title", .str "About Us")])])))
        (fun c => { c with href := .str "https://example.com" }) id
        (drawFor 7)).final.themeColor = .str "var(--ddd-primary-7)" :=
  ⟨fun _ _ v h hv => by
      cases h
      have hu : (Except.ok JSVal.undefined : Except JSError JSVal) = .ok v := hv
      cases hu
      rfl,
   ⟨rfl, by decide⟩,
   (fetchData_theme_by_href (.str "https://psu.edu/about")
    { Card.initial with href := .str "https://psu.edu/about" }
    (.response true 200 (.ok (.obj [("data", .obj [("title", .str "About Us")])])))
    (fun c => { c with href := .str "https://example.com" }) id (drawFor 7)
    (fun _ _ v h hv => by
      cases h
      have hu : (Except.ok JSVal.undefined : Except JSError JSVal) = .ok v := hv
      cases hu
      rfl)).2.2.2.1 "https://example.com" rfl (by decide),
   rfl⟩

/-! ## `updated` -/

/-- C9: `updated(changedProperties)` calls `fetchData(href)` once, issuing its
one request, when `changedProperties` has `"href"` and `href` is truthy, which
for a string means non-empty; the state it leaves is the one that run has at
its request. Otherwise (`"href"` is not among the changed properties, or
`href` is the empty string or another falsy value) it calls nothing, requests
nothing and changes no field. -/
theorem updated_triggers_fetch (changedProperties : List String) (c : Card) :
    ("href" ∈ changedProperties ∧ truthy c.href = true →
      (updated changedProperties c).calls = [c.href] ∧
      (updated changedProperties c).requests = [requestUrl c.href] ∧
      (updated changedProperties c).card = { c with loadingState := true } ∧
      ∀ out during1 during2 d,
        (updated changedProperties c).card =
          (fetchData c.href c out during1 during2 d).atRequest ∧
        (updated changedProperties c).requests =
          (fetchData c.href c out during1 during2 d).requests) ∧
    (¬ ("href" ∈ changedProperties ∧ truthy c.href = true) →
      (updated changedProperties c).calls = [] ∧
      (updated changedProperties c).requests = [] ∧
      (updated changedProperties c).card = c) ∧
    (∀ s : String, c.href = .str s → (truthy c.href = true ↔ s ≠ "")) := by
  refine ⟨?_, ?_, ?_⟩
  · rintro ⟨hmem, hne⟩
    have hcond : (changedProperties.contains "href" && truthy c.href) = true := by
      simp [hmem, hne]
    have hu : updated changedProperties c =
        { card := { c with loadingState := true }, calls := [c.href],
          requests := [requestUrl c.href] } := by
      unfold updated
      rw [if_pos hcond]
      rfl
    rw [hu]
    exact ⟨rfl, rfl, rfl, fun _ _ _ _ => ⟨rfl, rfl⟩⟩
  · intro hnot
    have hcond : (changedProperties.contains "href" && truthy c.href) = false := by
      rw [Bool.eq_false_iff]
      intro h
      apply hnot
      simpa using h
    have hu : updated changedProperties c = { card := c, calls := [], requests := [] } := by
      unfold updated
      rw [if_neg (by rw [hcond]; exact Bool.false_ne_true)]
    rw [hu]
    exact ⟨rfl, rfl, rfl⟩
  · intro s hs
    rw [hs]
    simp [truthy]

theorem updated_triggers_fetch_witness :
    (("href" ∈ ["href"] ∧
        truthy (Card.href { Card.initial with href := .str "https://example.com" }) = true) ∧
      (updated ["href"] { Card.initial with href := .str "https://example.com" }).calls =
        [.str "https://example.com"]) ∧
    ((¬ ("href" ∈ ["loadingState"] ∧
        truthy (Card.href { Card.initial with href := .str "https://example.com" }) = true)) ∧
      (updated ["loadingState"] { Card.initial with href := .str "https://example.com" }).card =
        { Card.initial with href := .str "https://example.com" }) ∧
    ((¬ ("href" ∈ ["href"] ∧ truthy (Card.href Card.initial) = true)) ∧
      (updated ["href"] Card.initial).requests = []) ∧
    (Card.href { Card.initial with href := .str "https://example.com" } =
        .str "https://example.com" ∧
      (truthy (Card.href { Card.initial with href := .str "https://example.com" }) = true ↔
        "https://example.com" ≠ "")) :=
  ⟨⟨⟨by decide, by decide⟩,
      ((updated_triggers_fetch ["href"]
        { Card.initial with href := .str "https://example.com" }).1
        ⟨by decide, by decide⟩).1⟩,
   ⟨by decide,
      ((updated_triggers_fetch ["loadingState"]
        { Card.initial with href := .str "https://example.com" }).2.1 (by decide)).2.2⟩,
   ⟨by decide, ((updated_triggers_fetch ["href"] Card.initial).2.1 (by decide)).2.1⟩,
   ⟨rfl, (updated_triggers_fetch ["href"]
        { Card.initial with href := .str "https://example.com" }).2.2 "https://example.com" rfl⟩⟩

/-! ## `handleImageError` and `render` -/

/-- C7: `handleImageError()` sets `image` to `""` and leaves `title`,
`description`, `link`, `themeColor`, `href` and `loadingState` as they were,
logging one warning with the image that failed; applying it again changes
nothing; and the render of the state it leaves has no `img` element. -/
theorem handleImageError_clears_image (c : Card) :
    (handleImageError c).1.image = .str "" ∧
    (handleImageError c).1.title = c.title ∧
    (handleImageError c).1.description = c.description ∧
    (handleImageError c).1.link = c.link ∧
    (handleImageError c).1.themeColor = c.themeColor ∧
    (handleImageError c).1.href = c.href ∧
    (handleImageError c).1.loadingState = c.loadingState ∧
    (handleImageError c).2 = [.warn "Image failed to load:" c.image] ∧
    (handleImageError (handleImageError c).1).1 = (handleImageError c).1 ∧
    "img" ∉ (render (handleImageError c).1).tags := by
  refine ⟨rfl, rfl, rfl, rfl, rfl, rfl, rfl, rfl, rfl, ?_⟩
  cases h : c.loadingState <;>
    simp [render, handleImageError, h, spinnerTemplate, previewTemplate, truthy, Html.tags,
      Html.tagsOfList]

/-- C8: what `render()` puts in the preview container is decided by
`loadingState`. When it is true the container holds the loading spinner alone,
whatever the other fields are. When it is false the container holds, in
document order, an `img` element exactly when `image` is truthy (for a string:
non-empty), bound to `image`, then the content block with the `h3` title
showing `title`, the `details` with its `summary` "Description" and the
description, and the `a` whose `href` is `link` and whose `target` is
`_blank`. -/
theorem render_by_loadingState (c : Card) :
    (render { c with loadingState := true }).children =
      [.element "div" [("class", .static "loading-spinner"), ("part", .static "loading-spinner")]
        []] ∧
    (render { c with loadingState := true }).tags = ["div", "div"] ∧
    (render { c with loadingState := false }).tags =
      "div" :: ((if truthy c.image then ["img"] else []) ++
        ["div", "h3", "details", "summary", "p", "a"]) ∧
    ("img" ∈ (render { c with loadingState := false }).tags ↔ truthy c.image = true) ∧
    (∀ s : String,
      "img" ∈ (render { c with image := .str s, loadingState := false }).tags ↔ s ≠ "") ∧
    (render { c with loadingState := false }).children =
      [ if truthy c.image then
          .element "img"
            [("src", .bound c.image), ("alt", .static ""),
             ("@error", .listener "handleImageError"), ("part", .static "image")] []
        else .expr (.str ""),
        .element "div" [("class", .static "content"), ("part", .static "content")]
          [ .element "h3" [("class", .static "title"), ("part", .static "title")]
              [.expr c.title],
            .element "details" [("part", .static "details")]
              [ .element "summary" [("part", .static "summary")] [.text "Description"],
                .element "p" [("class", .static "desc"), ("part", .static "desc")]
                  [.expr c.description] ],
            .element "a"
              [("href", .bound c.link), ("target", .static "_blank"), ("class", .static "url"),
               ("part", .static "url")] [.text "Visit Site"] ] ] := by
  refine ⟨rfl, rfl, ?_, ?_, ?_, rfl⟩
  · cases h : truthy c.image <;>
      simp [render, previewTemplate, h, Html.tags, Html.tagsOfList]
  · cases h : truthy c.image <;>
      simp [render, previewTemplate, h, Html.tags, Html.tagsOfList]
  · intro s
    by_cases hs : s = "" <;>
      simp [render, previewTemplate, truthy, hs, Html.tags, Html.tagsOfList]

end LinkPreviewCard
